import Mathlib

/-!
Shallow embedding of the LionTrade paper-trading core:
`trading/risk_manager.py`, `trading/execution_engine.py`,
`strategies/momentum_strategy.py`, `strategies/scalping_strategy.py`,
`data/websocket_manager.py`.

Python floats are modelled as exact rationals (ℚ); Python `None` and
missing dict keys are modelled with `Option`; `deque(maxlen=n)` is a list
trimmed on the left after append.  `print` calls and logging calls on a
logger the object actually owns are inert I/O and are dropped; the one
logging call on an attribute that is never assigned
(`RiskManager.approve_trade`'s `self.log`) is itself an `AttributeError`
and is modelled explicitly as the error path it is.
-/

namespace LionTrade

/-- Immutable configuration snapshot (`Config` dataclass in
`crypto_com_momo_bot.py`), restricted to the fields the embedded
components read. -/
structure Config where
  total_budget_usdt : ℚ
  risk_per_trade_pct : ℚ
  daily_drawdown_pct : ℚ
  throttle_window : ℕ
  throttle_threshold_pct : ℚ
  execution_mode : String
  large_order_threshold_usdt : ℚ
  take_profit_pct : ℚ
  stop_loss_pct : ℚ
  rsi_oversold : ℚ
  rsi_overbought : ℚ
  ema_len : ℕ
  zscore_len : ℕ
  zscore_entry : ℚ
  cooldown_sec : ℚ
  symbol_ccxt : String
  deriving Repr, DecidableEq

/-- A strategy signal: the Python dict `{"action": ..., "price": ...,
"reason": ...}`.  `price` is `Option` because the engine reads it with
`decision.get('price')`; `reason` defaults to `""` as in
`decision.get('reason','')`. -/
structure Signal where
  action : String
  price : Option ℚ
  reason : String := ""
  deriving Repr, DecidableEq

/-- An open position: the Python dict
`{"side": ..., "qty": ..., "entry": ...}`. -/
structure Pos where
  side : String
  qty : ℚ
  entry : ℚ
  deriving Repr, DecidableEq

/-- Python `collections.deque(maxlen := m)`: append on the right, evict from the
left once the length exceeds `m`. -/
def dequeAppend {α : Type} (m : ℕ) (xs : List α) (x : α) : List α :=
  let ys := xs ++ [x]
  if m < ys.length then ys.drop (ys.length - m) else ys

/-! ## RiskManager (`trading/risk_manager.py`) -/

/-- Mutable state of `RiskManager`: `starting_budget`,
`trading_paused_drawdown`, `trade_history` (deque of 0/1 outcomes,
maxlen `cfg.throttle_window`), `trading_paused_throttle`. -/
structure RiskState where
  starting_budget : ℚ
  trading_paused_drawdown : Bool
  trade_history : List ℕ
  trading_paused_throttle : Bool
  deriving Repr, DecidableEq

/-- Rolling win rate `sum(history) / len(history)` over the outcome
window, as a rational. -/
def winRate (h : List ℕ) : ℚ := (h.sum : ℚ) / (h.length : ℚ)

/-- Presence of a `log` attribute on a `RiskManager` instance.
`RiskManager.__init__` (risk_manager.py lines 5-13) assigns `cfg`,
`ai_analyzer`, `starting_budget`, the two pause flags and
`trade_history` — never `self.log` — and no other code in the
repository assigns a `log` attribute to a `RiskManager`, so every
instance the program constructs has this value `false`. -/
def riskManager_hasLog : Bool := false

/-- Embeds `RiskManager.approve_trade(signal, current_budget)`.  The
cached sentiment label (`ai_analyzer.get_current_sentiment()`, line 17)
is passed as an argument.  Line 18 then evaluates `self.log.debug(...)`:
on an object without a `log` attribute (`hasLog = false`, the state
every constructed `RiskManager` is in) this raises `AttributeError`
before any risk check runs, leaving the breaker state untouched; the
checks of lines 20-42 are reachable only for a hypothetical object that
carries a logger.  The result pairs the returned `bool` (or the raised
exception) with the post-call breaker state. -/
def approve_trade (cfg : Config) (hasLog : Bool) (sentiment : String)
    (signal : Signal) (current_budget : ℚ) (st : RiskState) :
    Except String Bool × RiskState :=
  if hasLog = false then
    (.error "AttributeError", st)
  else if signal.action = "enter_long" ∧ sentiment = "Bearish" then
    (.ok false, st)
  else
    let drawdown_pct := (current_budget - st.starting_budget) / st.starting_budget
    if drawdown_pct < -cfg.daily_drawdown_pct then
      (.ok false, { st with trading_paused_drawdown := true })
    else if st.trading_paused_throttle then
      (.ok false, st)
    else if st.trade_history.length = cfg.throttle_window then
      if winRate st.trade_history < cfg.throttle_threshold_pct then
        (.ok false, { st with trading_paused_throttle := true })
      else
        (.ok true, st)
    else
      (.ok true, st)

/-- Embeds `RiskManager.update_trade_history(pnl)`: append the outcome
(1 if `pnl > 0` else 0) and, when currently throttle-paused, lift the
pause if the recomputed win rate meets the threshold. -/
def update_trade_history (cfg : Config) (pnl : ℚ) (st : RiskState) : RiskState :=
  let h := dequeAppend cfg.throttle_window st.trade_history (if 0 < pnl then 1 else 0)
  let st1 := { st with trade_history := h }
  if st1.trading_paused_throttle then
    if cfg.throttle_threshold_pct ≤ winRate h then
      { st1 with trading_paused_throttle := false }
    else st1
  else st1

/-! ## ExecutionEngine (`trading/execution_engine.py`) -/

/-- The strategy attributes the engine reads through `getattr`.
`latest_ask` / `latest_bid` are `Option (Option ℚ)`: the outer `none`
means the attribute does not exist on the strategy object (Momentum),
`some none` means it exists and is Python `None` (Scalping before any
book update), `some (some q)` means an observed top-of-book price.
`pos` collapses "attribute absent" and `None` to `none`, matching
`getattr(self.strat, 'pos', None)`. -/
structure EngineStrat where
  pos : Option Pos
  latest_ask : Option (Option ℚ)
  latest_bid : Option (Option ℚ)
  deriving Repr, DecidableEq

/-- Engine-owned state: the budget plus the strategy attributes the
engine mutates (`self.strat.pos`). -/
structure EngineState where
  budget : ℚ
  strat : EngineStrat
  deriving Repr, DecidableEq

/-- One row appended by `_log_trade`; `pnl` is `none` for entries
(the Python call omits `pnl_usdt`). -/
structure TradeRecord where
  symbol : String
  action : String
  side : String
  price : ℚ
  qty : ℚ
  reason : String
  pnl : Option ℚ
  deriving Repr, DecidableEq

/-- Python `str.lower()` on ASCII config strings, written over the
character list so that it evaluates by kernel reduction. -/
def pyLower (s : String) : String := String.mk (s.data.map Char.toLower)

/-- Embeds `ExecutionEngine._order_size(price)`: 0 for a missing or
non-positive price, otherwise `max(budget * risk_per_trade_pct / price, 0.0)`. -/
def order_size (cfg : Config) (budget : ℚ) (price : Option ℚ) : ℚ :=
  match price with
  | none => 0
  | some p => if p ≤ 0 then 0 else max (budget * cfg.risk_per_trade_pct / p) 0

/-- Embeds `ExecutionEngine.act(decision)`.  Returns the updated engine state,
the updated risk state (via `update_trade_history` on exits) and the
list of trade records appended during the call. -/
def act (cfg : Config) (decision : Option Signal) (es : EngineState)
    (rs : RiskState) : EngineState × RiskState × List TradeRecord :=
  match decision with
  | none => (es, rs, [])
  | some d =>
    if d.action = "exit" then
      match es.strat.pos with
      | none => (es, rs, [])
      | some p =>
        let exitPrice? : Option ℚ :=
          match es.strat.latest_ask with
          | some v => v            -- attribute exists (its value, possibly None)
          | none => d.price        -- getattr default: decision.get('price')
        match exitPrice? with
        | none => (es, rs, [])
        | some exit_price =>
          if p.entry ≤ 0 ∨ p.qty ≤ 0 then
            ({ es with strat := { es.strat with pos := none } }, rs, [])
          else
            let pnl := (exit_price - p.entry) * p.qty
            ({ budget := es.budget + pnl,
               strat := { es.strat with pos := none } },
             update_trade_history cfg pnl rs,
             [{ symbol := cfg.symbol_ccxt, action := "EXIT", side := p.side,
                price := exit_price, qty := p.qty, reason := d.reason,
                pnl := some pnl }])
    else if d.action = "enter_long" then
      match es.strat.pos with
      | some _ => (es, rs, [])
      | none =>
        let price? : Option ℚ :=
          match es.strat.latest_bid with
          | some v => v
          | none => d.price
        match price? with
        | none => (es, rs, [])
        | some price =>
          let qty := order_size cfg es.budget (some price)
          let notional_value := qty * price
          let mode := pyLower cfg.execution_mode
          let reason :=
            if (mode = "auto" ∧ cfg.large_order_threshold_usdt < notional_value)
                ∨ mode = "twap" then "twap_entry"
            else "smart_limit_entry"
          let entry_price := price
          if qty ≤ 0 then (es, rs, [])
          else
            ({ es with strat := { es.strat with
                 pos := some { side := "LONG", qty := qty, entry := entry_price } } },
             rs,
             [{ symbol := cfg.symbol_ccxt, action := "ENTER", side := "LONG",
                price := entry_price, qty := qty, reason := reason,
                pnl := none }])
    else (es, rs, [])

/-! ## MomentumStrategy (`strategies/momentum_strategy.py`) -/

/-- Mutable state of `MomentumStrategy`: `last_signal_ts`, the bounded
price deque, the running EMA (`None` until the first price) and the
open position.  The unused `_tick` counter is omitted. -/
structure MomState where
  last_signal_ts : ℚ
  prices : List ℚ
  ema : Option ℚ
  pos : Option Pos
  deriving Repr, DecidableEq

/-- The Boolean value of `zscore(series, window) > c`, where `zscore` is
the helper in `momentum_strategy.py`: over the last `window` elements,
z = (last − mean) / sd with sd the sample standard deviation (`ddof=1`),
replaced by 1.0 when below the 1e-12 floor; 0.0 when the series is
shorter than the window.  The square root is eliminated by comparing
squares, so the definition stays within ℚ:  for sd = √v > 0,
`d > c·sd` iff (c < 0 and (d ≥ 0 or d² < c²·v)) or (c ≥ 0 and d > 0 and
d² > c²·v). -/
def zscoreGt (series : List ℚ) (window : ℕ) (c : ℚ) : Bool :=
  if series.length < window then
    decide ((0 : ℚ) > c)
  else
    let arr := series.drop (series.length - window)
    let n : ℚ := (window : ℚ)
    let mu := arr.sum / n
    let v := (arr.map (fun x => (x - mu) ^ 2)).sum / (n - 1)
    let d := (arr.getLast?.getD 0) - mu
    if v < 1 / 10 ^ 24 then
      decide (d > c)
    else if c < 0 then
      decide (0 ≤ d ∨ d ^ 2 < c ^ 2 * v)
    else
      decide (0 < d ∧ c ^ 2 * v < d ^ 2)

/-- Embeds `MomentumStrategy.on_price(px)`.  `now` is the value `time.time()`
would return during the call; ℚ prices are always finite so the
`math.isfinite` guard is vacuous.  Returns the emitted signal (if any)
and the updated strategy state. -/
def on_price (cfg : Config) (now : ℚ) (px? : Option ℚ) (st : MomState) :
    Option Signal × MomState :=
  match px? with
  | none => (none, st)
  | some px =>
    if px ≤ 0 then (none, st)
    else
      let alpha : ℚ := 2 / ((cfg.ema_len : ℚ) + 1)
      let newEma :=
        match st.ema with
        | none => px
        | some prev => alpha * px + (1 - alpha) * prev
      let prices1 := dequeAppend (max cfg.ema_len cfg.zscore_len * 3) st.prices px
      let st1 := { st with ema := some newEma, prices := prices1 }
      match st.pos with
      | none =>
        if cfg.zscore_len ≤ prices1.length then
          -- `px - (self._ema or px)`: a zero EMA is falsy in Python
          let momentum := px - (if newEma = 0 then px else newEma)
          if 0 < momentum ∧ zscoreGt prices1 cfg.zscore_len cfg.zscore_entry = true
              ∧ ¬ (now - st.last_signal_ts < cfg.cooldown_sec) then
            (some { action := "enter_long", price := some px },
             { st1 with last_signal_ts := now })
          else (none, st1)
        else (none, st1)
      | some p =>
        let tp := p.entry * (1 + cfg.take_profit_pct)
        let sl := p.entry * (1 + cfg.stop_loss_pct)
        if tp ≤ px then
          (some { action := "exit", price := some px, reason := "tp" }, st1)
        else if px ≤ sl then
          (some { action := "exit", price := some px, reason := "sl" }, st1)
        else (none, st1)

/-! ## ScalpingStrategy (`strategies/scalping_strategy.py`) -/

/-- One OHLCV candle row of the strategy's DataFrame. -/
structure Candle where
  open' : ℚ
  high : ℚ
  low : ℚ
  close : ℚ
  volume : ℚ
  deriving Repr, DecidableEq

/-- Mutable state of `ScalpingStrategy`: finalized candle history
(capacity 100), the in-progress candle, the minute bucket of the
current candle, and the latest top-of-book bid/ask (Python `None`
until a book update arrives). -/
structure ScalpState where
  candles : List Candle
  current_candle : Option Candle
  last_candle_timestamp : Option ℤ
  latest_bid : Option ℚ
  latest_ask : Option ℚ
  deriving Repr, DecidableEq

/-- The tick dict passed to `on_tick_update`; every key is read with
`.get`, so each field is `Option`.  Timestamps are minute-resolution
integers obtained by flooring epoch seconds (`timestamp.floor('1min')`
is modelled as floor division of seconds by 60). -/
structure TickData where
  symbol : Option String
  price : Option ℚ
  volume : Option ℚ
  timestamp : Option ℤ
  deriving Repr, DecidableEq

/-- Embeds `ScalpingStrategy.on_tick_update(tick_data)`: builds one-minute
candles; returns `true` exactly when a candle was finalized on this
call, paired with the updated state. -/
def on_tick_update (tick : TickData) (st : ScalpState) : Bool × ScalpState :=
  match tick.price, tick.timestamp with
  | some price, some ts =>
    let current_ts := Int.fdiv ts 60
    let finStep : Bool × ScalpState :=
      match st.last_candle_timestamp with
      | some lt =>
        if lt < current_ts then
          let cs :=
            match st.current_candle with
            | some cc => st.candles ++ [cc]
            | none => st.candles    -- unreachable: the two are set together
          let cs := if 100 < cs.length then cs.drop 1 else cs
          (true, { st with candles := cs, current_candle := none })
        else (false, st)
      | none => (false, st)
    let st1 := finStep.2
    let st2 :=
      match st1.current_candle with
      | none =>
        { st1 with
          current_candle := some { open' := price, high := price, low := price,
                                   close := price, volume := 0 },
          last_candle_timestamp := some current_ts }
      | some _ => st1
    let st3 :=
      match st2.current_candle with
      | some cc =>
        { st2 with current_candle := some { cc with
            high := max cc.high price, low := min cc.low price, close := price } }
      | none => st2
    (finStep.1, st3)
  | _, _ => (false, st)

/-- Element at index `j` of a close series, defaulting to 0 (only ever
read at in-range indices). -/
def seriesGet (xs : List ℚ) (j : ℕ) : ℚ := xs.getD j 0

/-- Models the `pandas_ta.ema(length, sma=True)` value at row `i` of the close
series `xs`: `NaN` (modelled `none`) for `i < length − 1`, the simple
mean of the first `length` closes at `i = length − 1`, and the
recursion `α·xᵢ + (1−α)·emaᵢ₋₁` with `α = 2/(length+1)` afterwards. -/
def emaAt (len : ℕ) (xs : List ℚ) : ℕ → Option ℚ
  | 0 => if len = 1 then some (seriesGet xs 0) else none
  | i + 1 =>
    if i + 2 < len then none
    else if i + 2 = len then some ((xs.take len).sum / (len : ℚ))
    else
      match emaAt len xs i with
      | some prev =>
        let alpha : ℚ := 2 / ((len : ℚ) + 1)
        some (alpha * seriesGet xs (i + 1) + (1 - alpha) * prev)
      | none => none

/-- First difference of the close series at row `i`
(`close.diff()`): `NaN` at row 0. -/
def diffAt (xs : List ℚ) : ℕ → Option ℚ
  | 0 => none
  | i + 1 => some (seriesGet xs (i + 1) - seriesGet xs i)

/-- Wilder moving average (`pandas_ta.rma`) of the series
`f : ℕ → ℚ` of diffs (meaningful from row 1) at row `i`: `NaN` for
`i < length`, the mean of rows `1..length` at `i = length`, then the
recursion with `α = 1/length`. -/
def rmaAt (len : ℕ) (f : ℕ → ℚ) : ℕ → Option ℚ
  | 0 => none
  | i + 1 =>
    if i + 1 < len then none
    else if i + 1 = len then
      some (((List.range len).map (fun j => f (j + 1))).sum / (len : ℚ))
    else
      match rmaAt len f i with
      | some prev =>
        let alpha : ℚ := 1 / (len : ℚ)
        some (alpha * f (i + 1) + (1 - alpha) * prev)
      | none => none

/-- Models `pandas_ta.rsi(length)` at row `i` of the close series: with
gains `max(diff,0)` and losses `min(diff,0)` averaged by `rmaAt`,
`rsi = 100·avgGain / (avgGain + |avgLoss|)`; `NaN` when either average
is undefined or the denominator is zero. -/
def rsiAt (len : ℕ) (xs : List ℚ) (i : ℕ) : Option ℚ :=
  let gain := fun j => max ((diffAt xs j).getD 0) 0
  let loss := fun j => min ((diffAt xs j).getD 0) 0
  match rmaAt len gain i, rmaAt len loss i with
  | some g, some l =>
    let den := g + |l|
    if den = 0 then none else some (100 * g / den)
  | _, _ => none

/-- A `NaN`-aware strict `<` on series values: any comparison against
`NaN` is `False` in pandas. -/
def oLt (a b : Option ℚ) : Bool :=
  match a, b with
  | some x, some y => decide (x < y)
  | _, _ => false

/-- A `NaN`-aware comparison of a series value against a scalar
threshold. -/
def oLtC (a : Option ℚ) (c : ℚ) : Bool :=
  match a with
  | some x => decide (x < c)
  | none => false

/-- A `NaN`-aware `value > threshold` comparison. -/
def oGtC (a : Option ℚ) (c : ℚ) : Bool :=
  match a with
  | some x => decide (c < x)
  | none => false

/-- Embeds `ScalpingStrategy.generate_signal()`: `None` below 22 candles;
otherwise compute EMA₉/EMA₂₁/RSI₁₄ over the close series and compare the
last and previous rows, checking the buy conditions before the sell
conditions; the signal price is the latest finalized close. -/
def generate_signal (cfg : Config) (st : ScalpState) : Option Signal :=
  if st.candles.length < 22 then none
  else
    let closes := st.candles.map Candle.close
    let n := closes.length
    let e9 := emaAt 9 closes
    let e21 := emaAt 21 closes
    let rsi := rsiAt 14 closes
    let ema_buy := oLt (e9 (n - 2)) (e21 (n - 2)) && oLt (e21 (n - 1)) (e9 (n - 1))
    let rsi_buy := oLtC (rsi (n - 1)) cfg.rsi_oversold
    let ema_sell := oLt (e21 (n - 2)) (e9 (n - 2)) && oLt (e9 (n - 1)) (e21 (n - 1))
    let rsi_sell := oGtC (rsi (n - 1)) cfg.rsi_overbought
    let lastClose := seriesGet closes (n - 1)
    if ema_buy || rsi_buy then
      some { action := "enter_long", price := some lastClose }
    else if ema_sell || rsi_sell then
      some { action := "exit", price := some lastClose }
    else none

/-- Embeds `ScalpingStrategy.on_order_book_update(order_book)`: overwrite the
cached bid/ask from the top levels when present.  The book dict is
modelled as the two optional top-of-book prices (`bids[0][0]`,
`asks[0][0]`); a missing or empty side leaves the cache unchanged. -/
def on_order_book_update (topBid topAsk : Option ℚ) (st : ScalpState) : ScalpState :=
  let st1 := match topBid with
    | some b => { st with latest_bid := some b }
    | none => st
  match topAsk with
  | some a => { st1 with latest_ask := some a }
  | none => st1

/-! ## WebSocketManager (`data/websocket_manager.py`) -/

/-- The strategy object wired into the manager: exactly one of the two
variants, with its state. -/
inductive Strategy where
  | scalping (st : ScalpState)
  | momentum (st : MomState)
  deriving Repr, DecidableEq

/-- One element of a ticker payload's `data` list, keeping the raw keys
`i` (symbol), `a` (price), `v` (volume) that `_route_data` reads. -/
structure TickerRaw where
  i : Option String
  a : Option ℚ
  v : Option ℚ
  deriving Repr, DecidableEq

/-- The `data` array of a frame's `result`: a list of raw ticks on a
ticker channel, or a list of order-book snapshots (modelled by their
top-of-book bid/ask) on a book channel. -/
inductive RouteData where
  | ticks (l : List TickerRaw)
  | books (l : List (Option ℚ × Option ℚ))
  deriving Repr, DecidableEq

/-- The `result` object of an inbound frame. `data = none` models a
missing `'data'` key. -/
structure FrameResult where
  channel : String
  data : Option RouteData
  deriving Repr, DecidableEq

/-- An inbound (JSON-decoded) frame.  `result = none` models a missing
or empty `'result'` value (both falsy in Python). -/
structure Frame where
  method : Option String
  id : Option ℤ
  result : Option FrameResult
  deriving Repr, DecidableEq

/-- Downstream invocations that `_route_data` can make; the trade path
calls are recorded so that theorems can state they never occur. -/
inductive Effect where
  | approveTrade
  | actCall
  | genSignal
  | bookUpd
  deriving Repr, DecidableEq

/-- Result of routing one frame: the updated strategy, the downstream
invocations that happened (in order), and the uncaught Python exception
(if any) that aborted the routing. -/
structure RouteOut where
  strat : Strategy
  effects : List Effect
  error : Option String
  deriving Repr, DecidableEq

/-- The ticker branch of `_route_data`: for each raw tick, build
`{'symbol': i, 'price': a, 'volume': v}` — note: no `'timestamp'` key —
and call `strategy.on_tick_update`.  A truthy return would invoke
`approve_trade` (recorded as an effect); `MomentumStrategy` has no
`on_tick_update` method, so the first tick raises `AttributeError`. -/
def route_ticks (strat : Strategy) (l : List TickerRaw) : RouteOut :=
  match strat, l with
  | strat, [] => ⟨strat, [], none⟩
  | .momentum st, _ :: _ => ⟨.momentum st, [], some "AttributeError"⟩
  | .scalping st, t :: rest =>
    let td : TickData := { symbol := t.i, price := t.a, volume := t.v,
                           timestamp := none }
    let r := on_tick_update td st
    if r.1 then
      -- `approve_trade` would be called with the Boolean `True` and
      -- crash on `signal.get`; only the invocation itself is recorded.
      ⟨.scalping r.2, [.approveTrade], some "AttributeError"⟩
    else route_ticks (.scalping r.2) rest

/-- The book branch of `_route_data`: `result['data'][0]` goes to
`on_order_book_update` (which only the Scalping variant defines). -/
def route_book (strat : Strategy) (b : Option ℚ × Option ℚ) : RouteOut :=
  match strat with
  | .momentum st => ⟨.momentum st, [], some "AttributeError"⟩
  | .scalping st => ⟨.scalping (on_order_book_update b.1 b.2 st), [.bookUpd], none⟩

/-- Embeds `WebSocketManager._route_data(data)`. -/
def route_data (strat : Strategy) (f : Frame) : RouteOut :=
  match f.result with
  | none => ⟨strat, [], none⟩
  | some r =>
    match r.data with
    | none => ⟨strat, [], none⟩
    | some pd =>
      if r.channel.startsWith "ticker." then
        match pd with
        | .ticks l => route_ticks strat l
        | .books _ => ⟨strat, [], none⟩
      else if r.channel.startsWith "book." then
        match pd with
        | .books (b :: _) => route_book strat b
        | .books [] => ⟨strat, [], some "IndexError"⟩
        | .ticks _ => ⟨strat, [], none⟩
      else ⟨strat, [], none⟩

/-- Observable steps of the `listen` loop, in program order. -/
inductive LEvent where
  | hbResponse (id : Option ℤ)
  | refreshSentiment
  | routePayload (f : Frame)
  deriving Repr, DecidableEq

/-- Processing of a single inbound frame inside `listen`'s receive
loop: a heartbeat request is answered immediately (echoing its `id`)
and nothing else happens for it (`continue`); any other frame first
refreshes the sentiment cache and is then routed. -/
def process_frame (f : Frame) : List LEvent :=
  if f.method = some "public/heartbeat" then [.hbResponse f.id]
  else [.refreshSentiment, .routePayload f]

/-- The event trace of `WebSocketManager.listen` over a finite inbound
frame sequence: one initial sentiment refresh, then each frame's steps
in arrival order. -/
def listen_trace (frames : List Frame) : List LEvent :=
  .refreshSentiment :: (frames.map process_frame).flatten

attribute [local semireducible] Rat.add Rat.mul Rat.inv Rat.sub

/-! ## Example inputs used by witnesses and counterexamples -/

/-- Concrete configuration used by the witnesses (default-style values:
1% risk per trade, 5% daily drawdown, throttle window 20 at 40%,
auto execution with a 500 USDT large-order threshold). -/
def exCfg : Config :=
  { total_budget_usdt := 100, risk_per_trade_pct := 1/100,
    daily_drawdown_pct := 1/20, throttle_window := 20,
    throttle_threshold_pct := 2/5, execution_mode := "auto",
    large_order_threshold_usdt := 500, take_profit_pct := 1/100,
    stop_loss_pct := 1/250, rsi_oversold := -1, rsi_overbought := 101,
    ema_len := 9, zscore_len := 5, zscore_entry := 1, cooldown_sec := 60,
    symbol_ccxt := "BTC/USDT" }

/-- Fresh risk state for starting budget 100. -/
def exRisk : RiskState :=
  { starting_budget := 100, trading_paused_drawdown := false,
    trade_history := [], trading_paused_throttle := false }

/-- An `enter_long` signal carrying price 100. -/
def exSigLong : Signal := { action := "enter_long", price := some 100 }

/-! ## Helper lemmas -/

/-- A tick dict without a `'timestamp'` key makes `on_tick_update` a
no-op returning `False`. -/
theorem on_tick_update_no_timestamp (t : TickData) (st : ScalpState)
    (h : t.timestamp = none) : on_tick_update t st = (false, st) := by
  cases t with
  | mk s p v ts =>
    cases h
    cases p <;> rfl

/-- Ticker routing through the Scalping strategy is a pure no-op: the
tick dicts built by `_route_data` carry no timestamp, so no candle ever
finalizes and no downstream call happens. -/
theorem route_ticks_scalping (l : List TickerRaw) (st : ScalpState) :
    route_ticks (.scalping st) l = ⟨.scalping st, [], none⟩ := by
  induction l with
  | nil => rfl
  | cons t rest ih =>
    show route_ticks (.scalping st) (t :: rest) = _
    rw [route_ticks]
    rw [on_tick_update_no_timestamp _ _ rfl]
    simpa using ih

/-- Ticker routing emits no downstream effects for either strategy
variant. -/
theorem route_ticks_effects (strat : Strategy) (l : List TickerRaw) :
    (route_ticks strat l).effects = [] := by
  cases strat with
  | scalping st => rw [route_ticks_scalping]
  | momentum st => cases l <;> rfl

/-- Every `approve_trade` call on a `RiskManager` as the program
constructs one (no `log` attribute) raises `AttributeError` at
risk_manager.py line 18, before any risk check, and leaves the breaker
state unchanged. -/
theorem approve_trade_always_raises (cfg : Config) (sent : String)
    (sig : Signal) (cb : ℚ) (st : RiskState) :
    approve_trade cfg riskManager_hasLog sent sig cb st =
      (.error "AttributeError", st) := rfl

/-! ## C1 — live ticker messages never reach the trade path -/

/-- C1: in the live routing path, no inbound frame — in particular no
ticker-channel payload — ever invokes `RiskManager.approve_trade`,
`ExecutionEngine.act`, or `ScalpingStrategy.generate_signal`: the tick
dicts built by `_route_data` have no `'timestamp'` key, so the Scalping
`on_tick_update` always returns `False`, and the Momentum variant has no
`on_tick_update` method at all (its routing aborts with
`AttributeError`). -/
theorem claim_C1_ticker_never_trades (strat : Strategy) (f : Frame) :
    Effect.approveTrade ∉ (route_data strat f).effects ∧
    Effect.actCall ∉ (route_data strat f).effects ∧
    Effect.genSignal ∉ (route_data strat f).effects := by
  obtain ⟨method, id, result⟩ := f
  cases result with
  | none => simp [route_data]
  | some r =>
    obtain ⟨channel, data⟩ := r
    cases data with
    | none => simp [route_data]
    | some pd =>
      simp only [route_data]
      split_ifs with h1 h2
      · cases pd with
        | ticks l => simp [route_ticks_effects]
        | books l => simp
      · cases pd with
        | ticks l => simp
        | books l =>
          cases l with
          | nil => simp
          | cons b rest =>
            cases strat <;> simp [route_book]
      · simp

/-! ## C2 — drawdown breaker -/

/-- C2 (code bug): budget 94 on a fresh `RiskManager` (starting budget
100, `daily_drawdown_pct = 1/20`) is strictly below the
`B×(1−d) = 95` drawdown line, and the sentiment veto does not apply —
yet `approve_trade` raises `AttributeError` at risk_manager.py line 18
(`self.log` is never assigned by `__init__`) instead of returning
`False`, and the drawdown-paused flag is left clear.  The rejection and
one-way latch the claim (and spec §4.4) describe are dead code behind
that unconditional error. -/
theorem claim_C2_drawdown_breaker_bug :
    (94 : ℚ) < 100 * (1 - exCfg.daily_drawdown_pct) ∧
    approve_trade exCfg riskManager_hasLog "Neutral" exSigLong 94 exRisk =
      (.error "AttributeError", exRisk) ∧
    (approve_trade exCfg riskManager_hasLog "Neutral" exSigLong 94
        exRisk).2.trading_paused_drawdown = false :=
  ⟨by norm_num [exCfg],
   approve_trade_always_raises exCfg "Neutral" exSigLong 94 exRisk, rfl⟩

/-! ## C3 — order sizing -/

/-- C3 counterexample: with a negative budget (−100 USDT) and price 1,
`_order_size` returns 0, not the exact value
`budget × risk_per_trade_pct / price = −1`: the code floors the quantity
at 0 (`max(..., 0.0)`), so the claim's "returns exactly
(budget × risk_per_trade_pct)/price for every budget" fails. -/
theorem claim_C3_counterexample :
    order_size exCfg (-100) (some 1) = 0 ∧
    (-100 : ℚ) * exCfg.risk_per_trade_pct / 1 ≠ 0 := by
  refine ⟨?_, ?_⟩ <;> decide

/-- C3 (amended): `_order_size(price)` returns 0 when the price is
missing or non-positive, and for `price > 0` returns
`max(budget × risk_per_trade_pct / price, 0)` — which equals the exact
quotient exactly when `budget × risk_per_trade_pct ≥ 0`; a negative
budget (times a non-negative risk fraction) is clamped to 0. -/
theorem claim_C3_order_size (cfg : Config) (budget p : ℚ) :
    order_size cfg budget none = 0 ∧
    (p ≤ 0 → order_size cfg budget (some p) = 0) ∧
    (0 < p → order_size cfg budget (some p)
      = max (budget * cfg.risk_per_trade_pct / p) 0) ∧
    (0 < p → 0 ≤ budget * cfg.risk_per_trade_pct →
      order_size cfg budget (some p) = budget * cfg.risk_per_trade_pct / p) := by
  refine ⟨rfl, ?_, ?_, ?_⟩
  · intro hp
    simp [order_size, hp]
  · intro hp
    simp [order_size, not_le.mpr hp]
  · intro hp hnn
    have hq : 0 ≤ budget * cfg.risk_per_trade_pct / p :=
      div_nonneg hnn hp.le
    simp [order_size, not_le.mpr hp, max_eq_left hq]

/-- C3 witness: budget 1000, risk 1%, price 100 gives quantity
`1000 × (1/100) / 100 = 1/10`. -/
theorem claim_C3_order_size_witness :
    order_size exCfg 1000 (some 100) = 1000 * exCfg.risk_per_trade_pct / 100 :=
  (claim_C3_order_size exCfg 1000 100).2.2.2 (by norm_num) (by decide)

/-! ## C4 — exit pricing and bookkeeping -/

/-- An example open long position: 0.1 units entered at 100. -/
def exPos : Pos := { side := "LONG", qty := 1/10, entry := 100 }

/-- Engine state for a Scalping strategy holding `exPos` before any
order-book update: the `latest_ask` attribute exists but is `None`. -/
def esPosNoAsk : EngineState :=
  { budget := 1000,
    strat := { pos := some exPos, latest_ask := some none, latest_bid := some none } }

/-- Engine state holding `exPos` after a book update set the ask
to 110. -/
def esPosAsk : EngineState :=
  { budget := 1000,
    strat := { pos := some exPos, latest_ask := some (some 110),
               latest_bid := some none } }

/-- C4 counterexample: with an open position (entry 100, qty 0.1 — both
positive) and the Scalping strategy's `latest_ask` attribute present but
still `None`, an exit signal carrying price 110 does nothing at all:
`getattr(self.strat, 'latest_ask', decision.get('price'))` returns the
attribute's `None` value (the default is used only when the attribute is
absent), so the engine returns early — no pnl is added, no record is
appended, and the position stays open, contrary to the claim's
"otherwise the signal's carried price". -/
theorem claim_C4_counterexample :
    act exCfg (some { action := "exit", price := some 110 }) esPosNoAsk exRisk
      = (esPosNoAsk, exRisk, []) ∧
    esPosNoAsk.strat.pos ≠ none := by
  refine ⟨?_, ?_⟩ <;> decide

/-- C4 (amended): for an exit signal with a position of positive entry
and qty open, (a) when the strategy carries an observed ask, that ask is
the exit price and the engine adds `pnl = (ask − entry) × qty` to the
budget, reports the outcome through `update_trade_history`, appends
exactly one EXIT record and clears the position; (b) when the
`latest_ask` attribute exists but is still `None` (Scalping before any
book update), the call is a no-op and the position stays open; (c) only
when the attribute is absent altogether (Momentum) does the signal's
carried price serve as the exit price, with the same bookkeeping
as (a). -/
theorem claim_C4_exit_pricing (cfg : Config) (es : EngineState)
    (rs : RiskState) (d : Signal) (p : Pos)
    (hpos : es.strat.pos = some p) (hact : d.action = "exit")
    (hentry : 0 < p.entry) (hqty : 0 < p.qty) :
    (∀ a : ℚ, es.strat.latest_ask = some (some a) →
      act cfg (some d) es rs =
        ({ budget := es.budget + (a - p.entry) * p.qty,
           strat := { es.strat with pos := none } },
         update_trade_history cfg ((a - p.entry) * p.qty) rs,
         [{ symbol := cfg.symbol_ccxt, action := "EXIT", side := p.side,
            price := a, qty := p.qty, reason := d.reason,
            pnl := some ((a - p.entry) * p.qty) }])) ∧
    (es.strat.latest_ask = some none →
      act cfg (some d) es rs = (es, rs, [])) ∧
    (∀ q : ℚ, es.strat.latest_ask = none → d.price = some q →
      act cfg (some d) es rs =
        ({ budget := es.budget + (q - p.entry) * p.qty,
           strat := { es.strat with pos := none } },
         update_trade_history cfg ((q - p.entry) * p.qty) rs,
         [{ symbol := cfg.symbol_ccxt, action := "EXIT", side := p.side,
            price := q, qty := p.qty, reason := d.reason,
            pnl := some ((q - p.entry) * p.qty) }])) := by
  refine ⟨?_, ?_, ?_⟩
  · intro a ha
    simp [act, hact, hpos, ha, hentry.not_le, hqty.not_le]
  · intro ha
    simp [act, hact, hpos, ha]
  · intro q ha hq
    simp [act, hact, hpos, ha, hq, hentry.not_le, hqty.not_le]

/-- C4 witness: position (entry 100, qty 0.1), observed ask 110, exit
signal priced 105 — the fill happens at the ask 110, pnl 1 is added
(budget 1001), the outcome is reported, one EXIT record appended, and
the position cleared. -/
theorem claim_C4_exit_pricing_witness :
    act exCfg (some { action := "exit", price := some 105 }) esPosAsk exRisk =
      ({ budget := 1001,
         strat := { pos := none, latest_ask := some (some 110),
                    latest_bid := some none } },
       update_trade_history exCfg 1 exRisk,
       [{ symbol := "BTC/USDT", action := "EXIT", side := "LONG",
          price := 110, qty := 1/10, reason := "", pnl := some 1 }]) := by
  have h := (claim_C4_exit_pricing exCfg esPosAsk exRisk
      { action := "exit", price := some 105 } exPos rfl rfl
      (by decide) (by decide)).1 110 rfl
  refine h.trans ?_
  decide

/-! ## C5 — entry route selection -/

/-- Configuration whose execution mode is neither `auto` nor `twap`. -/
def cfgLimit : Config := { exCfg with execution_mode := "limit" }

/-- Engine state with no position, a 100 000 USDT budget and an
observed bid of 100 (so `_order_size` yields qty 10, notional 1000). -/
def esBig : EngineState :=
  { budget := 100000,
    strat := { pos := none, latest_ask := some none, latest_bid := some (some 100) } }

/-- C5 counterexample: with `execution_mode = "limit"` the notional
1000 exceeds the 500 USDT large-order threshold, yet the recorded route
reason is `"smart_limit_entry"`: the code routes to TWAP only when
`mode == 'auto' and notional > threshold` or `mode == 'twap'`, so the
claim's "twap_entry whenever the notional exceeds the threshold"
fails for any other mode string. -/
theorem claim_C5_counterexample :
    (act cfgLimit (some exSigLong) esBig exRisk).2.2 =
      [{ symbol := "BTC/USDT", action := "ENTER", side := "LONG",
         price := 100, qty := 10, reason := "smart_limit_entry",
         pnl := none }] ∧
    cfgLimit.large_order_threshold_usdt < 10 * 100 ∧
    pyLower cfgLimit.execution_mode ≠ "twap" := by
  refine ⟨?_, ?_, ?_⟩ <;> decide

/-- C5 (amended): for an enter_long signal with no open position and a
positive computed quantity, the recorded route reason is `"twap_entry"`
exactly when the lower-cased execution mode is `"auto"` AND the notional
(qty × entry price) exceeds `large_order_threshold_usdt`, or the mode is
`"twap"`; in every other case (including a large notional under any
other mode) it is `"smart_limit_entry"`.  In both cases the order fills
instantly at the same computed entry price — the bid when observed,
otherwise the signal's carried price — the route choice affecting only
the recorded reason. -/
theorem claim_C5_entry_route (cfg : Config) (es : EngineState)
    (rs : RiskState) (d : Signal)
    (hpos : es.strat.pos = none) (hact : d.action = "enter_long") :
    ∀ price : ℚ,
      (es.strat.latest_bid = some (some price) ∨
        (es.strat.latest_bid = none ∧ d.price = some price)) →
      0 < order_size cfg es.budget (some price) →
      act cfg (some d) es rs =
        ({ es with strat := { es.strat with
             pos := some (Pos.mk "LONG" (order_size cfg es.budget (some price)) price) } },
         rs,
         [{ symbol := cfg.symbol_ccxt, action := "ENTER", side := "LONG",
            price := price, qty := order_size cfg es.budget (some price),
            reason :=
              if (pyLower cfg.execution_mode = "auto" ∧
                    cfg.large_order_threshold_usdt
                      < order_size cfg es.budget (some price) * price)
                  ∨ pyLower cfg.execution_mode = "twap"
              then "twap_entry" else "smart_limit_entry",
            pnl := none }]) := by
  intro price hsrc hq
  rcases hsrc with hbid | ⟨hbid, hp⟩
  · simp [act, hact, hpos, hbid, hq.not_le]
  · simp [act, hact, hpos, hbid, hp, hq.not_le]

/-- C5 witness: mode `auto`, bid 100, budget 100 000 — qty 10, notional
1000 > 500, so the single ENTER record carries reason `"twap_entry"`
and the position opens at the same entry price 100. -/
theorem claim_C5_entry_route_witness :
    act exCfg (some exSigLong)
      { budget := 100000,
        strat := { pos := none, latest_ask := some none,
                   latest_bid := some (some 100) } } exRisk =
      ({ budget := 100000,
         strat := { pos := some { side := "LONG", qty := 10, entry := 100 },
                    latest_ask := some none, latest_bid := some (some 100) } },
       exRisk,
       [{ symbol := "BTC/USDT", action := "ENTER", side := "LONG",
          price := 100, qty := 10, reason := "twap_entry", pnl := none }]) := by
  have h := claim_C5_entry_route exCfg
      { budget := 100000,
        strat := { pos := none, latest_ask := some none,
                   latest_bid := some (some 100) } } exRisk exSigLong
      rfl rfl 100 (Or.inl rfl) (by decide)
  refine h.trans ?_
  decide

/-! ## C6 — momentum exit thresholds -/

/-- C6: with a position open at entry `e`, both exit thresholds are
computed with the same positive sign — take-profit `e×(1+take_profit_pct)`
and stop boundary `e×(1+stop_loss_pct)` — and `on_price` returns the
`tp` exit when the price is at or beyond the take-profit threshold
(checked first), otherwise the `sl` exit when the price is at or below
the stop boundary. -/
theorem claim_C6_momentum_exit (cfg : Config) (now px : ℚ)
    (st : MomState) (p : Pos) (hpos : st.pos = some p) (hpx : 0 < px) :
    (p.entry * (1 + cfg.take_profit_pct) ≤ px →
      (on_price cfg now (some px) st).1 =
        some { action := "exit", price := some px, reason := "tp" }) ∧
    (px < p.entry * (1 + cfg.take_profit_pct) →
      px ≤ p.entry * (1 + cfg.stop_loss_pct) →
      (on_price cfg now (some px) st).1 =
        some { action := "exit", price := some px, reason := "sl" }) := by
  constructor
  · intro htp
    simp [on_price, hpos, hpx.not_le, htp]
  · intro htp hsl
    simp [on_price, hpos, hpx.not_le, not_le.mpr htp, hsl]

/-- Momentum strategy state holding `exPos` (entry 100). -/
def exMom : MomState :=
  { last_signal_ts := 0, prices := [100], ema := some 100, pos := some exPos }

/-- C6 witness: entry 100, `take_profit_pct = 1%`: price 101 hits the
take-profit threshold exactly and yields the `tp` exit signal. -/
theorem claim_C6_momentum_exit_witness :
    (on_price exCfg 1000 (some 101) exMom).1 =
      some { action := "exit", price := some 101, reason := "tp" } :=
  (claim_C6_momentum_exit exCfg 1000 101 exMom exPos rfl (by decide)).1
    (by decide)

/-! ## C7 — sentiment veto -/

/-- C7 (code bug): an enter_long signal arriving while the cached
sentiment is `"Bearish"` never receives the claimed `False` — the call
raises `AttributeError` at risk_manager.py line 18 before the veto at
line 20 can run, because `__init__` never assigns `self.log`.  The
universal conjunct shows no sentiment label, signal or state fares
differently: every `approve_trade` call on a constructed `RiskManager`
raises before any check. -/
theorem claim_C7_sentiment_veto_bug :
    exSigLong.action = "enter_long" ∧
    approve_trade exCfg riskManager_hasLog "Bearish" exSigLong 100 exRisk =
      (.error "AttributeError", exRisk) ∧
    (∀ (sent : String) (sig : Signal),
      approve_trade exCfg riskManager_hasLog sent sig 100 exRisk =
        approve_trade exCfg riskManager_hasLog "Bearish" exSigLong 100 exRisk) :=
  ⟨rfl, approve_trade_always_raises exCfg "Bearish" exSigLong 100 exRisk,
   fun sent sig =>
     (approve_trade_always_raises exCfg sent sig 100 exRisk).trans
       (approve_trade_always_raises exCfg "Bearish" exSigLong 100 exRisk).symm⟩

/-! ## C8 — rolling win-rate throttle -/

/-- Risk state whose 20-slot outcome window is full of losses. -/
def exRiskLosses : RiskState :=
  { starting_budget := 100, trading_paused_drawdown := false,
    trade_history := List.replicate 20 0, trading_paused_throttle := false }

/-- C8 (code bug): with the outcome window holding exactly
`W = throttle_window = 20` outcomes of mean win rate `0 < t = 2/5`, the
next `approve_trade` call never reaches the throttle check at
risk_manager.py lines 31-40: it raises `AttributeError` at line 18
(`self.log` is never assigned), so throttle-paused is never set and the
claimed reject/set/clear cycle never occurs.  (`update_trade_history`,
the clearing side, is live code — but the only operation that sets the
flag is dead.) -/
theorem claim_C8_throttle_bug :
    exRiskLosses.trade_history.length = exCfg.throttle_window ∧
    winRate exRiskLosses.trade_history < exCfg.throttle_threshold_pct ∧
    approve_trade exCfg riskManager_hasLog "Neutral" exSigLong 100
        exRiskLosses = (.error "AttributeError", exRiskLosses) ∧
    (approve_trade exCfg riskManager_hasLog "Neutral" exSigLong 100
        exRiskLosses).2.trading_paused_throttle = false :=
  ⟨by decide, by decide,
   approve_trade_always_raises exCfg "Neutral" exSigLong 100 exRiskLosses, rfl⟩

/-! ## C9 — scalping signal generation -/

/-- C9: `generate_signal` returns no signal with fewer than 22
finalized candles; with at least 22, whenever the 9-period EMA is below
the 21-period EMA on the previous row and above it on the last row, or
the RSI is below the oversold threshold, it returns an enter_long
signal priced at the latest finalized close — the buy conditions are
checked before the sell conditions, so the enter_long signal is emitted
even when a sell condition holds simultaneously, and at most one signal
is returned. -/
theorem claim_C9_generate_signal (cfg : Config) (st : ScalpState) :
    (st.candles.length < 22 → generate_signal cfg st = none) ∧
    (22 ≤ st.candles.length →
      ((oLt (emaAt 9 (st.candles.map Candle.close) (st.candles.length - 2))
            (emaAt 21 (st.candles.map Candle.close) (st.candles.length - 2)) &&
        oLt (emaAt 21 (st.candles.map Candle.close) (st.candles.length - 1))
            (emaAt 9 (st.candles.map Candle.close) (st.candles.length - 1))) ||
        oLtC (rsiAt 14 (st.candles.map Candle.close) (st.candles.length - 1))
          cfg.rsi_oversold) = true →
      generate_signal cfg st =
        some { action := "enter_long",
               price := some (seriesGet (st.candles.map Candle.close)
                 (st.candles.length - 1)),
               reason := "" }) := by
  constructor
  · intro h
    simp [generate_signal, h]
  · intro hlen hbuy
    have hnot : ¬ st.candles.length < 22 := not_lt.mpr hlen
    simp only [generate_signal, List.length_map]
    rw [if_neg hnot, if_pos hbuy]

/-- A flat candle whose four prices all equal `c`. -/
def mkFlatCandle (c : ℚ) : Candle :=
  { open' := c, high := c, low := c, close := c, volume := 0 }

/-- Fabricated close series: 21 declining closes 100, 99, …, 80
followed by a jump to 300, which flips the EMA9/EMA21 order between the
last two rows. -/
def exCloses : List ℚ := ((List.range 21).map (fun i => (100 : ℚ) - i)) ++ [300]

/-- Scalping state holding the 22 fabricated candles. -/
def exScalp : ScalpState :=
  { candles := exCloses.map mkFlatCandle, current_candle := none,
    last_candle_timestamp := some 0, latest_bid := none, latest_ask := none }

set_option maxRecDepth 10000 in
/-- C9 witness: on the fabricated 22-candle series the EMA9 crosses
from below EMA21 (84 < 90 on the previous row) to above (127.2 > 1200/11
on the last row), and `generate_signal` emits enter_long priced at the
final close 300. -/
theorem claim_C9_generate_signal_witness :
    generate_signal exCfg exScalp =
      some { action := "enter_long", price := some 300, reason := "" } := by
  have h := (claim_C9_generate_signal exCfg exScalp).2 (by decide) (by decide)
  exact h.trans (by decide)

/-! ## C10 — heartbeat protocol -/

/-- C10: a heartbeat frame anywhere in the inbound sequence contributes
exactly one event to the listen trace — the response echoing its
correlation id — placed after the full processing of every earlier
frame and before the processing of any later frame; it triggers no
sentiment refresh and no payload routing; and no non-heartbeat frame
ever produces a heartbeat response. -/
theorem claim_C10_heartbeat (pre post : List Frame) (hb : Frame)
    (hhb : hb.method = some "public/heartbeat") :
    (listen_trace (pre ++ hb :: post) =
      listen_trace pre ++
        LEvent.hbResponse hb.id :: (post.map process_frame).flatten) ∧
    (∀ f : Frame, f.method ≠ some "public/heartbeat" →
      ∀ i : Option ℤ, LEvent.hbResponse i ∉ process_frame f) := by
  constructor
  · simp [listen_trace, process_frame, hhb]
  · intro f hf i
    simp [process_frame, hf]

/-- A ticker frame for the C10 witness. -/
def exFrameTick : Frame :=
  { method := none, id := none,
    result := some { channel := "ticker.BTC_USDT",
                     data := some (.ticks
                       [{ i := some "BTC_USDT", a := some 100, v := some 1 }]) } }

/-- A heartbeat request frame with correlation id 42. -/
def exFrameHb : Frame :=
  { method := some "public/heartbeat", id := some 42, result := none }

/-- An order-book frame for the C10 witness. -/
def exFrameBook : Frame :=
  { method := none, id := none,
    result := some { channel := "book.BTC_USDT.10",
                     data := some (.books [(some 99, some 101)]) } }

/-- C10 witness: in the sequence ticker → heartbeat(42) → book, the
heartbeat contributes exactly the echo of id 42 between the two
routed frames. -/
theorem claim_C10_heartbeat_witness :
    listen_trace [exFrameTick, exFrameHb, exFrameBook] =
      listen_trace [exFrameTick] ++
        LEvent.hbResponse (some 42) ::
          ([exFrameBook].map process_frame).flatten := by
  have h := (claim_C10_heartbeat [exFrameTick] [exFrameBook] exFrameHb rfl).1
  exact h.trans (by decide)

end LionTrade
